import Mathlib

/-!
Verification development for the HedgeAssist risk & hedging control engine.

The Python sources are shallowly embedded as Lean definitions:

* `src/risk/calculator.py` — the parametric VaR slice of
  `calculate_position_greeks` and `generate_hedge_recommendation`;
* `src/hedging/strategies.py` — `validate_hedge`;
* `src/bot/telegram_bot.py` — the per-user monitoring state
  (`user['positions'][asset]` dictionaries), the hedge pipeline commands
  `hedge_now_command`, `hedge_now_command_for_auto`,
  `_execute_confirmed_hedge` / `_execute_confirmed_autohedge`, the alert
  gate of `send_risk_alert`, the suppression / pending-confirmation decay
  of `price_polling_loop`, `configure_monitor_command` and
  `stop_monitoring_command`.

Numbers are embedded as rationals.  Wall-clock instants (`datetime.now()`)
are rationals measured in seconds and passed in explicitly.  External
effects (price fetches, risk-metric computation, hedge calculation and
execution on the exchange) are passed in as explicit outcome parameters,
so each command becomes a pure state-transition function.
-/

namespace HedgeAssist

/-- Position dataclass from `src/exchanges/base.py`.  The `timestamp`
field is omitted (never read by the embedded logic). -/
structure Position where
  symbol : String
  size : ℚ
  side : String
  entry_price : ℚ
  current_price : ℚ
  unrealized_pnl : ℚ
  exchange : String
  option_type : Option String := none
  strike : Option ℚ := none
  expiry : Option ℚ := none
  underlying : Option String := none
deriving DecidableEq, Repr

/-- HedgeOrder dataclass from `src/hedging/strategies.py` (timestamp
omitted, it is never read by validation). -/
structure HedgeOrder where
  symbol : String
  side : String
  size : ℚ
  order_type : String
  price : Option ℚ := none
  exchange : String := ""
deriving DecidableEq, Repr

/-- HedgeRecommendation dataclass from `src/risk/calculator.py`.  The
`reason` field is an interpolated message in the source; its numeric
formatting is not modelled, only a fixed marker string is stored. -/
structure HedgeRecommendation where
  hedge_size : ℚ
  hedge_type : String
  hedge_instrument : String
  estimated_cost : ℚ
  urgency : String
  reason : String
deriving DecidableEq, Repr

/-- 95% parametric VaR from `calculate_position_greeks`
(`src/risk/calculator.py:187-188`):
`position_value = position.size * market_data.price`;
`var_95 = position_value * volatility * 1.645 * np.sqrt(time_to_expiry)`.
The argument `sqrtT` stands for `np.sqrt(time_to_expiry)`; it is
nonnegative, and positive exactly when `time_to_expiry` is positive. -/
def position_var_95 (size price volatility sqrtT : ℚ) : ℚ :=
  size * price * volatility * (1645 / 1000) * sqrtT

/-- 99% parametric VaR from `calculate_position_greeks`
(`src/risk/calculator.py:189`), z-score 2.326. -/
def position_var_99 (size price volatility sqrtT : ℚ) : ℚ :=
  size * price * volatility * (2326 / 1000) * sqrtT

/-- Embedding of `RiskCalculator.generate_hedge_recommendation`
(`src/risk/calculator.py:317-374`).  Receives the fields it actually
reads: `position.size`, `market_data.price`, `risk_metrics.delta`, the
threshold, and `position.symbol` / `position.side` for the instrument
name.  In Python a zero `position_value` raises `ZeroDivisionError`,
which the enclosing `except` turns into `None`; the first branch models
that. -/
def generate_hedge_recommendation (size price delta threshold : ℚ)
    (symbol side : String) : Option HedgeRecommendation :=
  let position_value := size * price
  if position_value = 0 then none
  else
    let delta_exposure := |delta| / position_value
    if delta_exposure > threshold then
      let hedge_size := |delta|
      if delta_exposure > threshold * 2 then
        some { hedge_size := hedge_size
               hedge_type := "perpetual"
               hedge_instrument := symbol ++ "-PERP"
               estimated_cost := hedge_size * price * (5 / 10000)
               urgency := "high"
               reason := "delta exposure exceeds threshold" }
      else
        some { hedge_size := hedge_size
               hedge_type := "option"
               hedge_instrument :=
                 if side = "long" then symbol ++ "-PUT" else symbol ++ "-CALL"
               estimated_cost := hedge_size * price * (5 / 100)
               urgency := "medium"
               reason := "delta exposure exceeds threshold" }
    else none

/-- Embedding of `BaseHedgingStrategy.validate_hedge`
(`src/hedging/strategies.py:60-89`).  `hasattr(position, 'side')` is
always true for a `Position`, so it is not modelled separately. -/
def validate_hedge (hedge_order : Option HedgeOrder)
    (position : Option Position) : Bool :=
  match hedge_order with
  | none => false
  | some o =>
    if o.size ≤ 0 then false
    else if o.side ≠ "buy" ∧ o.side ≠ "sell" then false
    else
      match position with
      | some p =>
        if p.side = "long" ∧ o.side = "buy" then false
        else if p.side = "short" ∧ o.side = "sell" then false
        else true
      | none => true

/-- One entry of a user's per-asset action history
(`user['positions'][asset]['history']` in `src/bot/telegram_bot.py`).
The `configure_monitor` entries additionally store the two thresholds;
other entries leave them `none`. -/
structure HistEntry where
  action : String
  time : ℚ
  delta_threshold : Option ℚ := none
  var_threshold : Option ℚ := none
deriving DecidableEq, Repr

/-- The per-asset monitoring dictionary `user['positions'][asset]` from
`src/bot/telegram_bot.py`.  Keys that a given code path never writes are
read through `.get` with the defaults used here (`pending_confirmation`
defaults to false, `last_hedge_time` and `var_threshold` to `None`). -/
structure PosEntry where
  position : Position
  threshold : ℚ
  var_threshold : Option ℚ := none
  start_time : Option ℚ := none
  is_active : Bool
  suppress_alerts : Bool
  pending_confirmation : Bool := false
  last_hedge_time : Option ℚ := none
  history : List HistEntry
deriving DecidableEq, Repr

/-- One user's slot of `self.user_data` (`_get_user`,
`src/bot/telegram_bot.py:191-198`).  `auto_hedge_strategy` models
`user.get('auto_hedge', {}).get('strategy', 'delta_neutral')`. -/
structure UserData where
  positions : List (String × PosEntry)
  history : List HistEntry := []
  auto_hedge_strategy : Option String := none
  auto_hedge_enabled : Bool := false
deriving DecidableEq, Repr

/-- Dictionary read `user['positions'].get(asset)` over the association
list representing the Python dict. -/
def lookupEntry (ps : List (String × PosEntry)) (asset : String) :
    Option PosEntry :=
  match ps with
  | [] => none
  | (k, e) :: rest => if k = asset then some e else lookupEntry rest asset

/-- Dictionary write `user['positions'][asset] = e`: replace the value
when the key exists, append it otherwise. -/
def setEntry (ps : List (String × PosEntry)) (asset : String)
    (e : PosEntry) : List (String × PosEntry) :=
  match ps with
  | [] => [(asset, e)]
  | (k, v) :: rest =>
    if k = asset then (asset, e) :: rest else (k, v) :: setEntry rest asset e

/-- Strategy registry keys of `HedgingManager.__init__`
(`src/hedging/strategies.py:360-364`). -/
def known_strategies : List String := ["delta_neutral", "options", "dynamic"]

/-- Return value of `HedgingManager.set_strategy`
(`src/hedging/strategies.py:367-375`). -/
def set_strategy_ok (name : String) : Bool := known_strategies.contains name

/-- Strategy name the bot passes to `set_strategy`:
`user.get('auto_hedge', {}).get('strategy', 'delta_neutral')`. -/
def user_strategy (u : UserData) : String :=
  u.auto_hedge_strategy.getD "delta_neutral"

/-- LARGE_TRADE_NOTIONAL_THRESHOLD from `src/bot/telegram_bot.py:30`. -/
def LARGE_TRADE_NOTIONAL_THRESHOLD : ℚ := 100000

/-- Outcome of the externally-effectful tail of a hedge pipeline, in the
order the source checks them: risk-metric computation returning falsy
(`metricsFail`), `calculate_hedge` raising (`calcError`) or returning
`None` (`noOrder`), `execute_hedge` raising (`execError`), or a
`HedgeResult` with the given `success` flag (`execDone`). -/
inductive PipeOutcome where
  | metricsFail
  | calcError
  | noOrder
  | execError
  | execDone (success : Bool)
deriving DecidableEq, Repr

/-- Result of one hedge-pipeline command invocation: the updated user
slot plus the externally visible events.  `prompted` is true when the
large-trade confirmation prompt was sent, `executed` when
`execute_hedge` returned a `HedgeResult`, `execSuccess` is that result's
success flag, and `raisedError` records an uncaught Python exception
escaping the function. -/
structure CmdResult where
  user : UserData
  prompted : Bool
  executed : Bool
  execSuccess : Bool
  raisedError : Bool
deriving DecidableEq, Repr

/-- Embedding of `hedge_now_command` (`src/bot/telegram_bot.py:487-657`),
after argument parsing succeeded, for the caller's user slot.  `fetch1`
is the price fetched when the asset is not yet monitored (line 515),
`fetch2` the fetch at line 556, `now` the clock, `out` the pipeline
outcome.  When the asset is unknown a basic inactive entry with
threshold 0.05 is created (lines 513-543); otherwise the monitored
position's size is overwritten with the requested size (line 555).  A
notional above the large-trade threshold only sends a prompt (lines
560-574) — `pending_confirmation` is not touched and no history entry is
appended.  On a successful execution `suppress_alerts` is set and a
`manual_hedge` history entry appended (lines 621-625); a failed
execution changes nothing. -/
def hedge_now_command (user : UserData) (asset : String) (size : ℚ)
    (fetch1 fetch2 : Option ℚ) (now : ℚ) (out : PipeOutcome) : CmdResult :=
  let step1 : Option UserData :=
    match lookupEntry user.positions asset with
    | none =>
      match fetch1 with
      | none => none
      | some price =>
        let basic : PosEntry :=
          { position :=
              { symbol := asset, size := size, side := "long"
                entry_price := price, current_price := price
                unrealized_pnl := 0, exchange := "deribit"
                underlying := some asset }
            threshold := 1 / 20, is_active := false
            suppress_alerts := false, history := [] }
        some { user with positions := setEntry user.positions asset basic }
    | some e =>
      let e1 : PosEntry := { e with position := { e.position with size := size } }
      some { user with positions := setEntry user.positions asset e1 }
  match step1 with
  | none => ⟨user, false, false, false, false⟩
  | some u =>
    match fetch2 with
    | none => ⟨u, false, false, false, false⟩
    | some price =>
      if |size * price| > LARGE_TRADE_NOTIONAL_THRESHOLD then
        ⟨u, true, false, false, false⟩
      else if out = PipeOutcome.metricsFail then ⟨u, false, false, false, false⟩
      else if set_strategy_ok (user_strategy u) then
        match out with
        | PipeOutcome.execDone success =>
          if success then
            match lookupEntry u.positions asset with
            | some e =>
              let e2 : PosEntry :=
                { e with suppress_alerts := true
                         history := e.history ++
                           [{ action := "manual_hedge", time := now }] }
              ⟨{ u with positions := setEntry u.positions asset e2 },
               false, true, true, false⟩
            | none => ⟨u, false, true, true, false⟩
          else ⟨u, false, true, false, false⟩
        | _ => ⟨u, false, false, false, false⟩
      else ⟨u, false, false, false, false⟩

/-- Embedding of `hedge_now_command_for_auto`
(`src/bot/telegram_bot.py:1503-1618`) for the real-portfolio branch.
`deribit_enabled` is the external Deribit configuration check.  A
missing entry raises `KeyError` at line 1515 (modelled by
`raisedError`).  A notional above the large-trade threshold sets
`pending_confirmation`, appends a `pending_confirmation_set` history
entry, and sends the prompt, unless a confirmation is already pending
(lines 1520-1547).  On success it sets `suppress_alerts` and appends an
`auto_hedge` history entry (lines 1615-1617); the failure reply at line
1607 references an undefined name `update` and raises `NameError`, so a
failed execution leaves the state unchanged and escapes with an
exception. -/
def hedge_now_command_for_auto (user : UserData) (asset : String)
    (fetch : Option ℚ) (now : ℚ) (out : PipeOutcome)
    (deribit_enabled : Bool) : CmdResult :=
  if deribit_enabled then
    match lookupEntry user.positions asset with
    | none => ⟨user, false, false, false, true⟩
    | some e =>
      match fetch with
      | none => ⟨user, false, false, false, false⟩
      | some price =>
        if |e.position.size * price| > LARGE_TRADE_NOTIONAL_THRESHOLD then
          if e.pending_confirmation then ⟨user, false, false, false, false⟩
          else
            let e2 : PosEntry :=
              { e with pending_confirmation := true
                       history := e.history ++
                         [{ action := "pending_confirmation_set", time := now }] }
            ⟨{ user with positions := setEntry user.positions asset e2 },
             true, false, false, false⟩
        else if out = PipeOutcome.metricsFail then
          ⟨user, false, false, false, false⟩
        else if set_strategy_ok (user_strategy user) then
          match out with
          | PipeOutcome.execDone success =>
            if success then
              let e2 : PosEntry :=
                { e with suppress_alerts := true
                         history := e.history ++
                           [{ action := "auto_hedge", time := now }] }
              ⟨{ user with positions := setEntry user.positions asset e2 },
               false, true, true, false⟩
            else ⟨user, false, true, false, true⟩
          | _ => ⟨user, false, false, false, false⟩
        else ⟨user, false, false, false, false⟩
  else ⟨user, false, false, false, false⟩

/-- Shared embedding of `_execute_confirmed_hedge`
(`src/bot/telegram_bot.py:2054-2127`) and
`_execute_confirmed_autohedge` (lines 2129-2202); the two bodies differ
only in the history action tag, passed here as `action`.  A missing
entry raises `KeyError` at the position lookup.  The position size is
overwritten with the confirmed size before anything else (line 2057).
On success: `suppress_alerts := true`, `pending_confirmation := false`,
history entry appended, `last_hedge_time := now` (lines 2104-2110).  On
failure only `pending_confirmation` is cleared (lines 2123-2126). -/
def execute_confirmed_core (user : UserData) (asset : String) (size : ℚ)
    (fetch : Option ℚ) (now : ℚ) (out : PipeOutcome)
    (action : String) : CmdResult :=
  match lookupEntry user.positions asset with
  | none => ⟨user, false, false, false, true⟩
  | some e0 =>
    let e := { e0 with position := { e0.position with size := size } }
    let u : UserData := { user with positions := setEntry user.positions asset e }
    match fetch with
    | none => ⟨u, false, false, false, false⟩
    | some _price =>
      if out = PipeOutcome.metricsFail then ⟨u, false, false, false, false⟩
      else if set_strategy_ok (user_strategy u) then
        match out with
        | PipeOutcome.execDone success =>
          if success then
            let e2 : PosEntry :=
              { e with suppress_alerts := true
                       pending_confirmation := false
                       history := e.history ++ [{ action := action, time := now }]
                       last_hedge_time := some now }
            ⟨{ u with positions := setEntry u.positions asset e2 },
             false, true, true, false⟩
          else
            let e2 : PosEntry := { e with pending_confirmation := false }
            ⟨{ u with positions := setEntry u.positions asset e2 },
             false, true, false, false⟩
        | _ => ⟨u, false, false, false, false⟩
      else ⟨u, false, false, false, false⟩

/-- `_execute_confirmed_hedge`: appends a `manual_hedge` entry. -/
def execute_confirmed_hedge (user : UserData) (asset : String) (size : ℚ)
    (fetch : Option ℚ) (now : ℚ) (out : PipeOutcome) : CmdResult :=
  execute_confirmed_core user asset size fetch now out "manual_hedge"

/-- `_execute_confirmed_autohedge`: appends an `auto_hedge` entry. -/
def execute_confirmed_autohedge (user : UserData) (asset : String) (size : ℚ)
    (fetch : Option ℚ) (now : ℚ) (out : PipeOutcome) : CmdResult :=
  execute_confirmed_core user asset size fetch now out "auto_hedge"

/-- Whether `send_risk_alert` (`src/bot/telegram_bot.py:1421-1425`)
proceeds past its suppression gate and emits the alert: it returns
early exactly when the asset has an entry whose `suppress_alerts` is
set. -/
def send_risk_alert_emits (user : UserData) (asset : String) : Bool :=
  match lookupEntry user.positions asset with
  | some e => ! e.suppress_alerts
  | none => true

/-- The alert guard of the monitor tick
(`src/bot/telegram_bot.py:1398-1399`): `send_risk_alert` is called only
when a breach occurred and `suppress_alerts` is clear. -/
def monitor_tick_alerts (e : PosEntry) (breach : Bool) : Bool :=
  breach && ! e.suppress_alerts

/-- Time of the most recent history entry whose action is in `acts`
(the `for action in reversed(history)` scans of `price_polling_loop`,
`src/bot/telegram_bot.py:1648-1653` and 1663-1668). -/
def last_action_time (history : List HistEntry) (acts : List String) :
    Option ℚ :=
  match history with
  | [] => none
  | h :: rest =>
    match last_action_time rest acts with
    | some t => some t
    | none => if acts.contains h.action then some h.time else none

/-- The per-entry timed-decay step of `price_polling_loop`
(`src/bot/telegram_bot.py:1644-1672`): reset `suppress_alerts` once the
most recent `manual_hedge` / `auto_hedge` history entry is older than
3600 seconds, and reset `pending_confirmation` once the most recent
`pending_confirmation_set` entry is older than 1800 seconds. -/
def poll_decay_step (e : PosEntry) (now : ℚ) : PosEntry :=
  let e1 :=
    if e.suppress_alerts then
      match last_action_time e.history ["manual_hedge", "auto_hedge"] with
      | some t =>
        if now - t > 3600 then { e with suppress_alerts := false } else e
      | none => e
    else e
  if e1.pending_confirmation then
    match last_action_time e1.history ["pending_confirmation_set"] with
    | some t =>
      if now - t > 1800 then { e1 with pending_confirmation := false } else e1
    | none => e1
  else e1

/-- Embedding of `configure_monitor_command`
(`src/bot/telegram_bot.py:1296-1302`) after argument parsing: an unknown
asset only replies "No monitoring found" (the `false` flag); an existing
entry gets the new thresholds, `suppress_alerts := true`, and a
`configure_monitor` history entry. -/
def configure_monitor_command (user : UserData) (asset : String)
    (delta_threshold : ℚ) (var_threshold : Option ℚ) (now : ℚ) :
    UserData × Bool :=
  match lookupEntry user.positions asset with
  | none => (user, false)
  | some e =>
    let e2 : PosEntry :=
      { e with threshold := delta_threshold
               var_threshold := var_threshold
               suppress_alerts := true
               history := e.history ++
                 [{ action := "configure_monitor", time := now
                    delta_threshold := some delta_threshold
                    var_threshold := var_threshold }] }
    ({ user with positions := setEntry user.positions asset e2 }, true)

/-- Key type of the top-level registry `self.user_data`.  `_get_user`
populates it with chat ids (`Sum.inl`); a Python string key (`Sum.inr`)
never compares equal to an int key, mirroring Python dict semantics. -/
abbrev RegKey := Int ⊕ String

/-- Reply sent by `stop_monitoring_command`. -/
inductive StopReply where
  | allStopped
  | stopped (asset : String)
  | notFound (asset : String)
deriving DecidableEq, Repr

/-- Python `del reg[k]` on the association list. -/
def eraseKey (reg : List (RegKey × UserData)) (k : RegKey) :
    List (RegKey × UserData) :=
  match reg with
  | [] => []
  | (k0, v) :: rest => if k0 = k then rest else (k0, v) :: eraseKey rest k

/-- Python `k in reg`. -/
def containsKey (reg : List (RegKey × UserData)) (k : RegKey) : Bool :=
  reg.any (fun p => decide (p.1 = k))

/-- Registry read `self.user_data.get(chat_id)`. -/
def lookupUser (reg : List (RegKey × UserData)) (chat : Int) :
    Option UserData :=
  match reg with
  | [] => none
  | (k, u) :: rest =>
    if k = Sum.inl chat then some u else lookupUser rest chat

/-- Embedding of `stop_monitoring_command`
(`src/bot/telegram_bot.py:659-702`) after argument parsing (the asset
argument arrives uppercased; no argument means "ALL").  For "ALL" the
whole top-level registry is cleared (`self.user_data.clear()`, line
665); otherwise the asset string is looked up among the top-level keys
of `self.user_data` — which `_get_user` populates with chat ids — and
deleted when present (lines 674-675). -/
def stop_monitoring_command (reg : List (RegKey × UserData))
    (asset : String) : List (RegKey × UserData) × StopReply :=
  if asset = "ALL" then ([], StopReply.allStopped)
  else if containsKey reg (Sum.inr asset) then
    (eraseKey reg (Sum.inr asset), StopReply.stopped asset)
  else (reg, StopReply.notFound asset)

/-- Concrete fixture: a long 100 BTC spot position at 50000, as built by
`monitor_risk_command` / the tests. -/
def samplePosition : Position :=
  { symbol := "BTC", size := 100, side := "long", entry_price := 50000
    current_price := 50000, unrealized_pnl := 0, exchange := "deribit" }

/-- Concrete fixture: an actively monitored entry for `samplePosition`
with the default 5% threshold and no history. -/
def sampleEntry : PosEntry :=
  { position := samplePosition, threshold := 1 / 20, is_active := true
    suppress_alerts := false, history := [] }

/-- Concrete fixture: a user slot monitoring BTC. -/
def sampleUser : UserData := { positions := [("BTC", sampleEntry)] }

/-- Concrete fixture: the top-level `self.user_data` registry with one
user (chat id 1) monitoring BTC. -/
def sampleRegistry : List (RegKey × UserData) := [(Sum.inl 1, sampleUser)]

/-- Concrete fixture: as `sampleUser` but with a confirmation pending
for BTC. -/
def samplePendingUser : UserData :=
  { positions := [("BTC", { sampleEntry with pending_confirmation := true })] }

/-- Concrete fixture: as `sampleUser` but with alerts suppressed for
BTC. -/
def suppressedUser : UserData :=
  { positions := [("BTC", { sampleEntry with suppress_alerts := true })] }

/-! ### Helper lemmas -/

theorem lookupEntry_setEntry_self (ps : List (String × PosEntry))
    (a : String) (e : PosEntry) :
    lookupEntry (setEntry ps a e) a = some e := by
  induction ps with
  | nil => simp [setEntry, lookupEntry]
  | cons p rest ih =>
    obtain ⟨k, v⟩ := p
    by_cases h : k = a
    · simp [setEntry, lookupEntry, h]
    · simp [setEntry, lookupEntry, h, ih]

theorem lookupUser_eraseKey_inr (reg : List (RegKey × UserData))
    (a : String) (chat : Int) :
    lookupUser (eraseKey reg (Sum.inr a)) chat = lookupUser reg chat := by
  induction reg with
  | nil => rfl
  | cons p rest ih =>
    obtain ⟨k, v⟩ := p
    by_cases h : k = Sum.inr a
    · subst h
      simp [eraseKey, lookupUser]
    · simp [eraseKey, h, lookupUser, ih]

/-- Path characterization: a manual `/hedge_now` on a monitored asset
whose requested notional exceeds the large-trade threshold only mutates
the position size and prompts — no execution, no `pending_confirmation`,
no history entry. -/
theorem hedge_now_command_large (user : UserData) (asset : String)
    (size price now : ℚ) (out : PipeOutcome) (f1 : Option ℚ) (e : PosEntry)
    (he : lookupEntry user.positions asset = some e)
    (hbig : |size * price| > LARGE_TRADE_NOTIONAL_THRESHOLD) :
    hedge_now_command user asset size f1 (some price) now out =
      ⟨{ user with
           positions := setEntry user.positions asset
             { e with position := { e.position with size := size } } },
       true, false, false, false⟩ := by
  unfold hedge_now_command
  rw [he]
  dsimp only
  rw [if_pos hbig]

/-- Path characterization: a small-notional manual `/hedge_now` on a
monitored asset with a known strategy and a successful execution sets
`suppress_alerts` and appends a `manual_hedge` history entry, leaving
`pending_confirmation` and `last_hedge_time` untouched. -/
theorem hedge_now_command_small_success (user : UserData) (asset : String)
    (size price now : ℚ) (f1 : Option ℚ) (e : PosEntry)
    (he : lookupEntry user.positions asset = some e)
    (hsmall : ¬ |size * price| > LARGE_TRADE_NOTIONAL_THRESHOLD)
    (hstrat : set_strategy_ok (user_strategy user) = true) :
    hedge_now_command user asset size f1 (some price) now (PipeOutcome.execDone true) =
      ⟨{ user with
           positions := setEntry
             (setEntry user.positions asset
               { e with position := { e.position with size := size } })
             asset
             { e with
                 position := { e.position with size := size }
                 suppress_alerts := true
                 history := e.history ++ [{ action := "manual_hedge", time := now }] } },
       false, true, true, false⟩ := by
  unfold hedge_now_command
  rw [he]
  dsimp only
  rw [if_neg hsmall, if_neg (fun h => PipeOutcome.noConfusion h)]
  dsimp only [user_strategy]
  have hstrat2 :
      set_strategy_ok (Option.getD user.auto_hedge_strategy "delta_neutral") = true := hstrat
  rw [if_pos hstrat2]
  rw [lookupEntry_setEntry_self]
  rfl

/-- Path characterization: a small-notional manual `/hedge_now` whose
execution result reports failure changes nothing beyond the position
size mutation. -/
theorem hedge_now_command_small_failure (user : UserData) (asset : String)
    (size price now : ℚ) (f1 : Option ℚ) (e : PosEntry)
    (he : lookupEntry user.positions asset = some e)
    (hsmall : ¬ |size * price| > LARGE_TRADE_NOTIONAL_THRESHOLD)
    (hstrat : set_strategy_ok (user_strategy user) = true) :
    hedge_now_command user asset size f1 (some price) now (PipeOutcome.execDone false) =
      ⟨{ user with
           positions := setEntry user.positions asset
             { e with position := { e.position with size := size } } },
       false, true, false, false⟩ := by
  unfold hedge_now_command
  rw [he]
  dsimp only
  rw [if_neg hsmall, if_neg (fun h => PipeOutcome.noConfusion h)]
  dsimp only [user_strategy]
  have hstrat2 :
      set_strategy_ok (Option.getD user.auto_hedge_strategy "delta_neutral") = true := hstrat
  rw [if_pos hstrat2]
  rfl

/-- Path characterization: the auto-hedge pipeline on a large notional
with no confirmation pending sets `pending_confirmation`, appends a
`pending_confirmation_set` history entry, prompts, and does not
execute. -/
theorem hedge_now_auto_large (user : UserData) (asset : String)
    (price now : ℚ) (out : PipeOutcome) (e : PosEntry)
    (he : lookupEntry user.positions asset = some e)
    (hbig : |e.position.size * price| > LARGE_TRADE_NOTIONAL_THRESHOLD)
    (hpend : e.pending_confirmation = false) :
    hedge_now_command_for_auto user asset (some price) now out true =
      ⟨{ user with
           positions := setEntry user.positions asset
             { e with
                 pending_confirmation := true
                 history := e.history ++
                   [{ action := "pending_confirmation_set", time := now }] } },
       true, false, false, false⟩ := by
  unfold hedge_now_command_for_auto
  rw [he]
  dsimp only
  rw [if_pos hbig, hpend]
  rfl

/-- Path characterization: the auto-hedge pipeline on a large notional
with a confirmation already pending changes nothing and does not prompt
again. -/
theorem hedge_now_auto_large_pending (user : UserData) (asset : String)
    (price now : ℚ) (out : PipeOutcome) (e : PosEntry)
    (he : lookupEntry user.positions asset = some e)
    (hbig : |e.position.size * price| > LARGE_TRADE_NOTIONAL_THRESHOLD)
    (hpend : e.pending_confirmation = true) :
    hedge_now_command_for_auto user asset (some price) now out true =
      ⟨user, false, false, false, false⟩ := by
  unfold hedge_now_command_for_auto
  rw [he]
  dsimp only
  rw [if_pos hbig, hpend]
  rfl

/-- Path characterization: a small-notional auto hedge with a known
strategy and a successful execution sets `suppress_alerts` and appends
an `auto_hedge` history entry — `pending_confirmation` and
`last_hedge_time` are untouched. -/
theorem hedge_now_auto_small_success (user : UserData) (asset : String)
    (price now : ℚ) (e : PosEntry)
    (he : lookupEntry user.positions asset = some e)
    (hsmall : ¬ |e.position.size * price| > LARGE_TRADE_NOTIONAL_THRESHOLD)
    (hstrat : set_strategy_ok (user_strategy user) = true) :
    hedge_now_command_for_auto user asset (some price) now (PipeOutcome.execDone true) true =
      ⟨{ user with
           positions := setEntry user.positions asset
             { e with
                 suppress_alerts := true
                 history := e.history ++ [{ action := "auto_hedge", time := now }] } },
       false, true, true, false⟩ := by
  unfold hedge_now_command_for_auto
  rw [he]
  dsimp only
  rw [if_neg hsmall, if_neg (fun h => PipeOutcome.noConfusion h), if_pos hstrat]
  rfl

/-- Path characterization: a small-notional auto hedge whose execution
reports failure leaves the state unchanged; the failure reply at
`src/bot/telegram_bot.py:1607` references the undefined name `update`
and raises `NameError`, which escapes the function. -/
theorem hedge_now_auto_small_failure (user : UserData) (asset : String)
    (price now : ℚ) (e : PosEntry)
    (he : lookupEntry user.positions asset = some e)
    (hsmall : ¬ |e.position.size * price| > LARGE_TRADE_NOTIONAL_THRESHOLD)
    (hstrat : set_strategy_ok (user_strategy user) = true) :
    hedge_now_command_for_auto user asset (some price) now (PipeOutcome.execDone false) true =
      ⟨user, false, true, false, true⟩ := by
  unfold hedge_now_command_for_auto
  rw [he]
  dsimp only
  rw [if_neg hsmall, if_neg (fun h => PipeOutcome.noConfusion h), if_pos hstrat]
  rfl

/-- Path characterization: a confirmed execution that succeeds sets
`suppress_alerts`, clears `pending_confirmation`, appends the history
entry and sets `last_hedge_time` to the current time. -/
theorem execute_confirmed_core_success (user : UserData) (asset : String)
    (size price now : ℚ) (act : String) (e : PosEntry)
    (he : lookupEntry user.positions asset = some e)
    (hstrat : set_strategy_ok (user_strategy user) = true) :
    execute_confirmed_core user asset size (some price) now (PipeOutcome.execDone true) act =
      ⟨{ user with
           positions := setEntry
             (setEntry user.positions asset
               { e with position := { e.position with size := size } })
             asset
             { e with
                 position := { e.position with size := size }
                 suppress_alerts := true
                 pending_confirmation := false
                 history := e.history ++ [{ action := act, time := now }]
                 last_hedge_time := some now } },
       false, true, true, false⟩ := by
  unfold execute_confirmed_core
  rw [he]
  dsimp only
  rw [if_neg (fun h => PipeOutcome.noConfusion h)]
  dsimp only [user_strategy]
  have hstrat2 :
      set_strategy_ok (Option.getD user.auto_hedge_strategy "delta_neutral") = true := hstrat
  rw [if_pos hstrat2]
  rfl

/-- Path characterization: a confirmed execution that fails only clears
`pending_confirmation` (besides the position-size mutation), leaving
`suppress_alerts` unchanged. -/
theorem execute_confirmed_core_failure (user : UserData) (asset : String)
    (size price now : ℚ) (act : String) (e : PosEntry)
    (he : lookupEntry user.positions asset = some e)
    (hstrat : set_strategy_ok (user_strategy user) = true) :
    execute_confirmed_core user asset size (some price) now (PipeOutcome.execDone false) act =
      ⟨{ user with
           positions := setEntry
             (setEntry user.positions asset
               { e with position := { e.position with size := size } })
             asset
             { e with
                 position := { e.position with size := size }
                 pending_confirmation := false } },
       false, true, false, false⟩ := by
  unfold execute_confirmed_core
  rw [he]
  dsimp only
  rw [if_neg (fun h => PipeOutcome.noConfusion h)]
  dsimp only [user_strategy]
  have hstrat2 :
      set_strategy_ok (Option.getD user.auto_hedge_strategy "delta_neutral") = true := hstrat
  rw [if_pos hstrat2]
  rfl

/-! ### Claims -/

/-- C5: for every position, risk metrics, and market snapshot with
positive position value, `generate_hedge_recommendation` returns none
iff `|delta| / positionValue ≤ threshold`; when it returns a
recommendation, its `hedge_size` equals `|delta|`, and when additionally
`|delta| / positionValue > 2 * threshold` the `hedge_type` is
"perpetual" with urgency "high" (otherwise "option" with urgency
"medium"). -/
theorem C5_hedge_recommendation (size price delta threshold : ℚ)
    (symbol side : String) (hpv : 0 < size * price) :
    (generate_hedge_recommendation size price delta threshold symbol side = none ↔
      |delta| / (size * price) ≤ threshold) ∧
    (∀ r, generate_hedge_recommendation size price delta threshold symbol side = some r →
      r.hedge_size = |delta| ∧
      (|delta| / (size * price) > 2 * threshold →
        r.hedge_type = "perpetual" ∧ r.urgency = "high") ∧
      (|delta| / (size * price) ≤ 2 * threshold →
        r.hedge_type = "option" ∧ r.urgency = "medium")) := by
  have hne : size * price ≠ 0 := ne_of_gt hpv
  constructor
  · unfold generate_hedge_recommendation
    rw [if_neg hne]
    by_cases hexp : |delta| / (size * price) > threshold
    · rw [if_pos hexp]
      constructor
      · intro h
        by_cases h2 : |delta| / (size * price) > threshold * 2
        · rw [if_pos h2] at h; exact Option.noConfusion h
        · rw [if_neg h2] at h; exact Option.noConfusion h
      · intro h; exact absurd hexp (not_lt.mpr h)
    · rw [if_neg hexp]
      simp only [true_iff]
      exact not_lt.mp hexp
  · intro r hr
    unfold generate_hedge_recommendation at hr
    rw [if_neg hne] at hr
    by_cases hexp : |delta| / (size * price) > threshold
    · rw [if_pos hexp] at hr
      by_cases h2 : |delta| / (size * price) > threshold * 2
      · rw [if_pos h2] at hr
        injection hr with hr
        subst hr
        refine ⟨rfl, fun _ => ⟨rfl, rfl⟩, fun hle => ?_⟩
        exact absurd h2 (not_lt.mpr (by linarith))
      · rw [if_neg h2] at hr
        injection hr with hr
        subst hr
        refine ⟨rfl, fun hgt => ?_, fun _ => ⟨rfl, rfl⟩⟩
        have := not_lt.mp h2
        exact absurd hgt (not_lt.mpr (by linarith))
    · rw [if_neg hexp] at hr
      exact Option.noConfusion hr

/-- C5 witness: a concrete position (size 1, price 100, delta 50,
threshold 0.05) with positive value gets a perpetual high-urgency
recommendation of size `|50|`. -/
theorem C5_witness :
    (generate_hedge_recommendation 1 100 50 (5 / 100) "BTC" "long" = none ↔
      |(50 : ℚ)| / ((1 : ℚ) * 100) ≤ 5 / 100) ∧
    (∀ r, generate_hedge_recommendation 1 100 50 (5 / 100) "BTC" "long" = some r →
      r.hedge_size = |(50 : ℚ)| ∧
      (|(50 : ℚ)| / ((1 : ℚ) * 100) > 2 * (5 / 100) →
        r.hedge_type = "perpetual" ∧ r.urgency = "high") ∧
      (|(50 : ℚ)| / ((1 : ℚ) * 100) ≤ 2 * (5 / 100) →
        r.hedge_type = "option" ∧ r.urgency = "medium")) :=
  C5_hedge_recommendation 1 100 50 (5 / 100) "BTC" "long" (by norm_num)

/-- C6 counterexample: with `volatility = 0.3 > 0` but a zero position
value (size 1, price 0), the parametric VaR of
`calculate_position_greeks` gives `var_99 = var_95 = 0`, so
`var_99 > var_95` fails with positive volatility alone. -/
theorem C6_counterexample :
    (0 : ℚ) < 3 / 10 ∧
    ¬ position_var_99 1 0 (3 / 10) (287 / 1000) >
        position_var_95 1 0 (3 / 10) (287 / 1000) := by
  constructor
  · norm_num
  · unfold position_var_95 position_var_99
    norm_num

/-- C6 (amended): `var_99 > var_95` holds whenever `volatility > 0`, the
position value `size * price` is positive, and the time to expiry is
positive (`sqrtT` stands for `np.sqrt(time_to_expiry)`, which is
positive exactly when the expiry horizon is). -/
theorem C6_var_ordering_amended (size price volatility sqrtT : ℚ)
    (hpv : 0 < size * price) (hvol : 0 < volatility) (hsq : 0 < sqrtT) :
    position_var_99 size price volatility sqrtT >
      position_var_95 size price volatility sqrtT := by
  unfold position_var_95 position_var_99
  have h : (0 : ℚ) < size * price * volatility * sqrtT :=
    mul_pos (mul_pos hpv hvol) hsq
  nlinarith

/-- C6 witness: concrete evaluation at size 1, price 50000,
volatility 0.3, `sqrtT` 0.287. -/
theorem C6_witness :
    position_var_99 1 50000 (3 / 10) (287 / 1000) >
      position_var_95 1 50000 (3 / 10) (287 / 1000) :=
  C6_var_ordering_amended 1 50000 (3 / 10) (287 / 1000)
    (by norm_num) (by norm_num) (by norm_num)

/-- C7: `validate_hedge` returns false exactly when the order is null,
its size is nonpositive, its side is outside buy/sell, or a non-null
position is given whose natural side equals the order's side (long with
"buy", short with "sell"); any order passing the basic checks validates
against a null position. -/
theorem C7_validate_hedge :
    (∀ p : Option Position, validate_hedge none p = false) ∧
    (∀ (o : HedgeOrder) (p : Option Position),
      validate_hedge (some o) p = false ↔
        (o.size ≤ 0 ∨ (o.side ≠ "buy" ∧ o.side ≠ "sell") ∨
          ∃ q, p = some q ∧
            ((q.side = "long" ∧ o.side = "buy") ∨
             (q.side = "short" ∧ o.side = "sell")))) ∧
    (∀ o : HedgeOrder, 0 < o.size → (o.side = "buy" ∨ o.side = "sell") →
      validate_hedge (some o) none = true) := by
  refine ⟨fun p => rfl, fun o p => ?_, fun o h1 h2 => ?_⟩
  · cases p with
    | none =>
      simp only [validate_hedge]
      split_ifs <;> simp_all
    | some q =>
      simp only [validate_hedge]
      split_ifs <;> simp_all
  · simp only [validate_hedge]
    split_ifs with ha hb
    · exact absurd h1 (not_lt.mpr ha)
    · exact absurd h2 (by tauto)
    · rfl

/-- C7 witness: a sell order of positive size against a null position
validates. -/
theorem C7_witness :
    validate_hedge
      (some { symbol := "BTC-PERP", side := "sell", size := 100
              order_type := "market", price := some 51000
              exchange := "deribit" }) none = true :=
  C7_validate_hedge.2.2
    { symbol := "BTC-PERP", side := "sell", size := 100
      order_type := "market", price := some 51000, exchange := "deribit" }
    (by norm_num) (Or.inr rfl)

/-- C9: a successful threshold reconfiguration on an existing entry
updates both thresholds, sets `suppress_alerts := true`, and appends a
`configure_monitor` history entry. -/
theorem C9_configure_monitor_effects (user : UserData) (asset : String)
    (e : PosEntry) (d : ℚ) (v : Option ℚ) (now : ℚ)
    (he : lookupEntry user.positions asset = some e) :
    (configure_monitor_command user asset d v now).2 = true ∧
    lookupEntry (configure_monitor_command user asset d v now).1.positions asset =
      some { e with threshold := d, var_threshold := v
                    suppress_alerts := true
                    history := e.history ++
                      [{ action := "configure_monitor", time := now
                         delta_threshold := some d, var_threshold := v }] } := by
  unfold configure_monitor_command
  rw [he]
  exact ⟨rfl, lookupEntry_setEntry_self _ _ _⟩

/-- C9 witness: reconfiguring the sample BTC entry to thresholds
0.04 / 15000 at time 42. -/
theorem C9_witness :
    (configure_monitor_command sampleUser "BTC" (1 / 25) (some 15000) 42).2 = true ∧
    lookupEntry (configure_monitor_command sampleUser "BTC" (1 / 25) (some 15000) 42).1.positions "BTC" =
      some { sampleEntry with threshold := 1 / 25, var_threshold := some 15000
                              suppress_alerts := true
                              history := sampleEntry.history ++
                                [{ action := "configure_monitor", time := 42
                                   delta_threshold := some (1 / 25)
                                   var_threshold := some 15000 }] } :=
  C9_configure_monitor_effects sampleUser "BTC" sampleEntry (1 / 25) (some 15000) 42 rfl

/-- C8: stopping with asset "ALL" clears the entire top-level
`self.user_data` registry; stopping a specific asset (≠ "ALL") only ever
deletes the key `asset` from that chat-id-keyed registry, so every
user's slot — in particular the caller's MonitorEntry for that asset —
is left untouched, and when the string key is absent (the normal case,
since `_get_user` only inserts chat ids) the command reports "not
found". -/
theorem C8_stop_monitoring_frame (reg : List (RegKey × UserData))
    (asset : String) (chat : Int) (hne : asset ≠ "ALL") :
    (stop_monitoring_command reg "ALL").1 = [] ∧
    lookupUser (stop_monitoring_command reg asset).1 chat = lookupUser reg chat ∧
    (containsKey reg (Sum.inr asset) = true →
      (stop_monitoring_command reg asset).1 = eraseKey reg (Sum.inr asset)) ∧
    (containsKey reg (Sum.inr asset) = false →
      (stop_monitoring_command reg asset).1 = reg ∧
      (stop_monitoring_command reg asset).2 = StopReply.notFound asset) := by
  refine ⟨by simp [stop_monitoring_command], ?_, ?_, ?_⟩
  · unfold stop_monitoring_command
    rw [if_neg hne]
    by_cases hc : containsKey reg (Sum.inr asset) = true
    · rw [if_pos hc]
      exact lookupUser_eraseKey_inr reg asset chat
    · rw [if_neg hc]
  · intro hc
    unfold stop_monitoring_command
    rw [if_neg hne, if_pos hc]
  · intro hc
    unfold stop_monitoring_command
    rw [if_neg hne, if_neg (by simp [hc])]
    exact ⟨rfl, rfl⟩

/-- C8 witness: the sample registry (one user, chat id 1, monitoring
BTC) together with the asset string "BTC". -/
theorem C8_witness :
    (stop_monitoring_command sampleRegistry "ALL").1 = [] ∧
    lookupUser (stop_monitoring_command sampleRegistry "BTC").1 1 =
      lookupUser sampleRegistry 1 ∧
    (containsKey sampleRegistry (Sum.inr "BTC") = true →
      (stop_monitoring_command sampleRegistry "BTC").1 =
        eraseKey sampleRegistry (Sum.inr "BTC")) ∧
    (containsKey sampleRegistry (Sum.inr "BTC") = false →
      (stop_monitoring_command sampleRegistry "BTC").1 = sampleRegistry ∧
      (stop_monitoring_command sampleRegistry "BTC").2 = StopReply.notFound "BTC") :=
  C8_stop_monitoring_frame sampleRegistry "BTC" 1 (by decide)

/-- C4 (code bug): with chat id 1 actively monitoring BTC,
`stop_monitoring_command` for "BTC" looks the asset string up among the
chat-id keys of `self.user_data`, finds nothing, replies "No monitoring
found for BTC", and leaves the user's BTC entry active — instead of
deactivating it and reporting a count of stopped positions as the claim
states. -/
theorem C4_stop_monitoring_bug :
    (stop_monitoring_command sampleRegistry "BTC").2 = StopReply.notFound "BTC" ∧
    (stop_monitoring_command sampleRegistry "BTC").1 = sampleRegistry ∧
    (lookupUser (stop_monitoring_command sampleRegistry "BTC").1 1).map
        (fun u => (lookupEntry u.positions "BTC").map PosEntry.is_active) =
      some (some true) :=
  ⟨rfl, rfl, rfl⟩

set_option maxHeartbeats 1000000 in
/-- C10: a manual hedge request for a monitored asset overwrites the
stored position's size with the requested hedge size before hedging, in
`hedge_now_command` and in the confirmed-hedge path, and the mutation
persists in the MonitorEntry on every outcome (so subsequent breach and
notional computations use it); for an asset not yet monitored, a new
inactive entry with the default threshold 0.05 and the requested size is
created instead of failing. -/
theorem C10_manual_hedge_size_overwrite (user : UserData) (asset : String)
    (size : ℚ) (f1 f2 : Option ℚ) (now : ℚ) (out : PipeOutcome) :
    (∀ e, lookupEntry user.positions asset = some e →
      (lookupEntry (hedge_now_command user asset size f1 f2 now out).user.positions asset).map
          (fun en => en.position.size) = some size ∧
      (lookupEntry (execute_confirmed_core user asset size f2 now out "manual_hedge").user.positions asset).map
          (fun en => en.position.size) = some size) ∧
    (∀ price1, lookupEntry user.positions asset = none → f1 = some price1 →
      (lookupEntry (hedge_now_command user asset size f1 f2 now out).user.positions asset).map
          (fun en => (en.is_active, en.threshold, en.position.size)) =
        some (false, 1 / 20, size)) := by
  constructor
  · intro e he
    constructor
    · unfold hedge_now_command
      rw [he]
      repeat' split
      all_goals try (simp_all [lookupEntry_setEntry_self])
      all_goals (split_ifs <;> simp_all [lookupEntry_setEntry_self])
    · unfold execute_confirmed_core
      rw [he]
      repeat' split
      all_goals try (simp_all [lookupEntry_setEntry_self])
      all_goals (split_ifs <;> simp_all [lookupEntry_setEntry_self])
  · intro price1 he hf1
    unfold hedge_now_command
    rw [he, hf1]
    repeat' split
    all_goals try (simp_all [lookupEntry_setEntry_self])
    all_goals (split_ifs <;> simp_all [lookupEntry_setEntry_self])

/-- C10 witness: requesting a manual hedge of size 10 for the monitored
sample user, and of size 7 for a user not yet monitoring ETH. -/
theorem C10_witness :
    ((lookupEntry (hedge_now_command sampleUser "BTC" 10 none (some 50000) 3 (PipeOutcome.execDone true)).user.positions "BTC").map
        (fun en => en.position.size) = some 10 ∧
      (lookupEntry (execute_confirmed_core sampleUser "BTC" 10 (some 50000) 3 (PipeOutcome.execDone true) "manual_hedge").user.positions "BTC").map
        (fun en => en.position.size) = some 10) ∧
    (lookupEntry (hedge_now_command sampleUser "ETH" 7 (some 3000) (some 3000) 3 (PipeOutcome.execDone true)).user.positions "ETH").map
        (fun en => (en.is_active, en.threshold, en.position.size)) =
      some (false, 1 / 20, 7) :=
  ⟨(C10_manual_hedge_size_overwrite sampleUser "BTC" 10 none (some 50000) 3
      (PipeOutcome.execDone true)).1 sampleEntry rfl,
   (C10_manual_hedge_size_overwrite sampleUser "ETH" 7 (some 3000) (some 3000) 3
      (PipeOutcome.execDone true)).2 3000 rfl rfl⟩

/-- C1 counterexample: a manual `/hedge_now BTC 10` at price 50000
(notional 500000 > 100000) emits the confirmation prompt WITHOUT setting
`pending_confirmation` and without appending a
`pending_confirmation_set` history entry, and the subsequent confirmed
execution runs to success with `pending_confirmation` never having been
true — refuting the claim for the manual path it quantifies over. -/
theorem C1_counterexample :
    (hedge_now_command sampleUser "BTC" 10 none (some 50000) 0 (PipeOutcome.execDone true)).prompted = true ∧
    (hedge_now_command sampleUser "BTC" 10 none (some 50000) 0 (PipeOutcome.execDone true)).executed = false ∧
    (lookupEntry (hedge_now_command sampleUser "BTC" 10 none (some 50000) 0 (PipeOutcome.execDone true)).user.positions "BTC").map
        PosEntry.pending_confirmation = some false ∧
    (lookupEntry (hedge_now_command sampleUser "BTC" 10 none (some 50000) 0 (PipeOutcome.execDone true)).user.positions "BTC").map
        PosEntry.history = some [] ∧
    (execute_confirmed_hedge (hedge_now_command sampleUser "BTC" 10 none (some 50000) 0 (PipeOutcome.execDone true)).user
        "BTC" 10 (some 50000) 1 (PipeOutcome.execDone true)).executed = true ∧
    (execute_confirmed_hedge (hedge_now_command sampleUser "BTC" 10 none (some 50000) 0 (PipeOutcome.execDone true)).user
        "BTC" 10 (some 50000) 1 (PipeOutcome.execDone true)).execSuccess = true := by
  have hbig : |(10 : ℚ) * 50000| > LARGE_TRADE_NOTIONAL_THRESHOLD := by
    norm_num [LARGE_TRADE_NOTIONAL_THRESHOLD]
  have h1 := hedge_now_command_large sampleUser "BTC" 10 50000 0
    (PipeOutcome.execDone true) none sampleEntry rfl hbig
  rw [h1]
  have h2 := execute_confirmed_core_success
    { sampleUser with
        positions := setEntry sampleUser.positions "BTC"
          { sampleEntry with
              position := { sampleEntry.position with size := 10 } } }
    "BTC" 10 50000 1 "manual_hedge" _ (lookupEntry_setEntry_self _ _ _) rfl
  unfold execute_confirmed_hedge
  dsimp only
  dsimp only at h2
  rw [h2]
  refine ⟨rfl, rfl, ?_, ?_, rfl, rfl⟩
  · rw [lookupEntry_setEntry_self]
    rfl
  · rw [lookupEntry_setEntry_self]
    rfl

/-- C1 (amended): in the auto-hedge pipeline a hedge with
notional > 100000 never executes in that invocation — when no
confirmation is pending, `pending_confirmation` is set, a
`pending_confirmation_set` history entry appended, and the prompt
emitted; when one is pending, nothing changes.  In the manual
`hedge_now_command` a large hedge is likewise not executed and a prompt
is emitted, but `pending_confirmation` and the history are left
untouched.  The confirmed execution, whenever it reaches an execution
result, clears `pending_confirmation`, and on success sets
`last_hedge_time` to the current time. -/
theorem C1_confirmation_law_amended (user : UserData) (asset : String)
    (e : PosEntry) (size price now : ℚ) (out : PipeOutcome)
    (f1 : Option ℚ) (act : String) (s : Bool)
    (he : lookupEntry user.positions asset = some e)
    (hstrat : set_strategy_ok (user_strategy user) = true) :
    (|e.position.size * price| > LARGE_TRADE_NOTIONAL_THRESHOLD →
      e.pending_confirmation = false →
      (hedge_now_command_for_auto user asset (some price) now out true).executed = false ∧
      (hedge_now_command_for_auto user asset (some price) now out true).prompted = true ∧
      lookupEntry (hedge_now_command_for_auto user asset (some price) now out true).user.positions asset =
        some { e with
                 pending_confirmation := true
                 history := e.history ++
                   [{ action := "pending_confirmation_set", time := now }] }) ∧
    (|e.position.size * price| > LARGE_TRADE_NOTIONAL_THRESHOLD →
      e.pending_confirmation = true →
      (hedge_now_command_for_auto user asset (some price) now out true).executed = false ∧
      (hedge_now_command_for_auto user asset (some price) now out true).prompted = false ∧
      (hedge_now_command_for_auto user asset (some price) now out true).user = user) ∧
    (|size * price| > LARGE_TRADE_NOTIONAL_THRESHOLD →
      (hedge_now_command user asset size f1 (some price) now out).executed = false ∧
      (hedge_now_command user asset size f1 (some price) now out).prompted = true ∧
      (lookupEntry (hedge_now_command user asset size f1 (some price) now out).user.positions asset).map
          PosEntry.pending_confirmation = some e.pending_confirmation ∧
      (lookupEntry (hedge_now_command user asset size f1 (some price) now out).user.positions asset).map
          PosEntry.history = some e.history) ∧
    ((lookupEntry (execute_confirmed_core user asset size (some price) now (PipeOutcome.execDone s) act).user.positions asset).map
        PosEntry.pending_confirmation = some false ∧
     (s = true →
       (lookupEntry (execute_confirmed_core user asset size (some price) now (PipeOutcome.execDone s) act).user.positions asset).map
         PosEntry.last_hedge_time = some (some now))) := by
  refine ⟨?_, ?_, ?_, ?_⟩
  · intro hbig hpend
    rw [hedge_now_auto_large user asset price now out e he hbig hpend]
    exact ⟨rfl, rfl, lookupEntry_setEntry_self _ _ _⟩
  · intro hbig hpend
    rw [hedge_now_auto_large_pending user asset price now out e he hbig hpend]
    exact ⟨rfl, rfl, rfl⟩
  · intro hbig
    rw [hedge_now_command_large user asset size price now out f1 e he hbig]
    refine ⟨rfl, rfl, ?_, ?_⟩
    · rw [lookupEntry_setEntry_self]
      rfl
    · rw [lookupEntry_setEntry_self]
      rfl
  · cases s with
    | true =>
      rw [execute_confirmed_core_success user asset size price now act e he hstrat]
      constructor
      · rw [lookupEntry_setEntry_self]
        rfl
      · intro _
        rw [lookupEntry_setEntry_self]
        rfl
    | false =>
      rw [execute_confirmed_core_failure user asset size price now act e he hstrat]
      constructor
      · rw [lookupEntry_setEntry_self]
        rfl
      · intro hs
        exact absurd hs (by simp)

/-- C1 witness: the auto pipeline on the sample user (100 BTC at price
50000, notional 5000000 > 100000, nothing pending) suspends with the
flag set and the history entry appended; a confirmed execution on the
sample user clears the flag and sets `last_hedge_time`. -/
theorem C1_witness :
    ((hedge_now_command_for_auto sampleUser "BTC" (some 50000) 7 (PipeOutcome.execDone true) true).executed = false ∧
     (hedge_now_command_for_auto sampleUser "BTC" (some 50000) 7 (PipeOutcome.execDone true) true).prompted = true ∧
     lookupEntry (hedge_now_command_for_auto sampleUser "BTC" (some 50000) 7 (PipeOutcome.execDone true) true).user.positions "BTC" =
       some { sampleEntry with
                pending_confirmation := true
                history := sampleEntry.history ++
                  [{ action := "pending_confirmation_set", time := 7 }] }) ∧
    ((lookupEntry (execute_confirmed_core sampleUser "BTC" 10 (some 50000) 7 (PipeOutcome.execDone true) "manual_hedge").user.positions "BTC").map
        PosEntry.pending_confirmation = some false ∧
     ((true : Bool) = true →
       (lookupEntry (execute_confirmed_core sampleUser "BTC" 10 (some 50000) 7 (PipeOutcome.execDone true) "manual_hedge").user.positions "BTC").map
         PosEntry.last_hedge_time = some (some 7))) :=
  ⟨(C1_confirmation_law_amended sampleUser "BTC" sampleEntry 10 50000 7
      (PipeOutcome.execDone true) none "manual_hedge" true rfl rfl).1
      (by norm_num [sampleEntry, samplePosition, LARGE_TRADE_NOTIONAL_THRESHOLD]) rfl,
   (C1_confirmation_law_amended sampleUser "BTC" sampleEntry 10 50000 7
      (PipeOutcome.execDone true) none "manual_hedge" true rfl rfl).2.2.2⟩

/-- C2: whenever a monitored entry's `suppress_alerts` flag is true, no
risk alert is emitted for that asset (both at the monitor-tick guard and
inside `send_risk_alert` itself) regardless of breach state; immediately
after a successful hedge on any pipeline (manual, auto, confirmed)
`suppress_alerts` is true and an alert check on the resulting state
emits nothing; and the 20-second price-polling decay step resets
`suppress_alerts` to false exactly when the most recent
`manual_hedge`/`auto_hedge` history action is older than 3600
seconds. -/
theorem C2_suppression_law :
    (∀ (user : UserData) (asset : String) (e : PosEntry),
      lookupEntry user.positions asset = some e →
      e.suppress_alerts = true → send_risk_alert_emits user asset = false) ∧
    (∀ (e : PosEntry) (breach : Bool), e.suppress_alerts = true →
      monitor_tick_alerts e breach = false) ∧
    (∀ (user : UserData) (asset : String) (e : PosEntry) (size price now : ℚ)
        (f1 : Option ℚ),
      lookupEntry user.positions asset = some e →
      ¬ |size * price| > LARGE_TRADE_NOTIONAL_THRESHOLD →
      set_strategy_ok (user_strategy user) = true →
      (hedge_now_command user asset size f1 (some price) now (PipeOutcome.execDone true)).execSuccess = true ∧
      send_risk_alert_emits (hedge_now_command user asset size f1 (some price) now (PipeOutcome.execDone true)).user asset = false) ∧
    (∀ (user : UserData) (asset : String) (e : PosEntry) (price now : ℚ),
      lookupEntry user.positions asset = some e →
      ¬ |e.position.size * price| > LARGE_TRADE_NOTIONAL_THRESHOLD →
      set_strategy_ok (user_strategy user) = true →
      (hedge_now_command_for_auto user asset (some price) now (PipeOutcome.execDone true) true).execSuccess = true ∧
      send_risk_alert_emits (hedge_now_command_for_auto user asset (some price) now (PipeOutcome.execDone true) true).user asset = false) ∧
    (∀ (user : UserData) (asset : String) (e : PosEntry) (size price now : ℚ)
        (act : String),
      lookupEntry user.positions asset = some e →
      set_strategy_ok (user_strategy user) = true →
      (execute_confirmed_core user asset size (some price) now (PipeOutcome.execDone true) act).execSuccess = true ∧
      send_risk_alert_emits (execute_confirmed_core user asset size (some price) now (PipeOutcome.execDone true) act).user asset = false) ∧
    (∀ (e : PosEntry) (now t : ℚ), e.suppress_alerts = true →
      last_action_time e.history ["manual_hedge", "auto_hedge"] = some t →
      now - t > 3600 → (poll_decay_step e now).suppress_alerts = false) := by
  refine ⟨?_, ?_, ?_, ?_, ?_, ?_⟩
  · intro user asset e he hs
    unfold send_risk_alert_emits
    rw [he]
    dsimp only
    rw [hs]
    rfl
  · intro e breach hs
    unfold monitor_tick_alerts
    rw [hs]
    simp
  · intro user asset e size price now f1 he hsmall hstrat
    rw [hedge_now_command_small_success user asset size price now f1 e he hsmall hstrat]
    refine ⟨rfl, ?_⟩
    unfold send_risk_alert_emits
    rw [lookupEntry_setEntry_self]
    rfl
  · intro user asset e price now he hsmall hstrat
    rw [hedge_now_auto_small_success user asset price now e he hsmall hstrat]
    refine ⟨rfl, ?_⟩
    unfold send_risk_alert_emits
    rw [lookupEntry_setEntry_self]
    rfl
  · intro user asset e size price now act he hstrat
    rw [execute_confirmed_core_success user asset size price now act e he hstrat]
    refine ⟨rfl, ?_⟩
    unfold send_risk_alert_emits
    rw [lookupEntry_setEntry_self]
    rfl
  · intro e now t hs hlast hgt
    unfold poll_decay_step
    repeat' split
    all_goals try simp_all
    all_goals (split_ifs <;> (repeat' split) <;> simp_all)

/-- C2 witness: concrete instances of each conjunct — a suppressed BTC
entry emits nothing; a small manual hedge, a small auto hedge and a
confirmed hedge on the sample user each succeed and leave the asset
silenced; and a suppressed entry whose last manual hedge is 4000 seconds
old is unsuppressed by the polling decay step. -/
theorem C2_witness :
    send_risk_alert_emits suppressedUser "BTC" = false ∧
    monitor_tick_alerts { sampleEntry with suppress_alerts := true } true = false ∧
    ((hedge_now_command sampleUser "BTC" 1 none (some 100) 5 (PipeOutcome.execDone true)).execSuccess = true ∧
     send_risk_alert_emits (hedge_now_command sampleUser "BTC" 1 none (some 100) 5 (PipeOutcome.execDone true)).user "BTC" = false) ∧
    ((hedge_now_command_for_auto sampleUser "BTC" (some 1) 5 (PipeOutcome.execDone true) true).execSuccess = true ∧
     send_risk_alert_emits (hedge_now_command_for_auto sampleUser "BTC" (some 1) 5 (PipeOutcome.execDone true) true).user "BTC" = false) ∧
    ((execute_confirmed_core sampleUser "BTC" 10 (some 50) 9 (PipeOutcome.execDone true) "manual_hedge").execSuccess = true ∧
     send_risk_alert_emits (execute_confirmed_core sampleUser "BTC" 10 (some 50) 9 (PipeOutcome.execDone true) "manual_hedge").user "BTC" = false) ∧
    (poll_decay_step
      { sampleEntry with
          suppress_alerts := true
          history := [{ action := "manual_hedge", time := 0 }] } 4000).suppress_alerts = false :=
  ⟨C2_suppression_law.1 suppressedUser "BTC"
      { sampleEntry with suppress_alerts := true } rfl rfl,
   C2_suppression_law.2.1 { sampleEntry with suppress_alerts := true } true rfl,
   C2_suppression_law.2.2.1 sampleUser "BTC" sampleEntry 1 100 5 none rfl
     (by norm_num [LARGE_TRADE_NOTIONAL_THRESHOLD]) rfl,
   C2_suppression_law.2.2.2.1 sampleUser "BTC" sampleEntry 1 5 rfl
     (by norm_num [sampleEntry, samplePosition, LARGE_TRADE_NOTIONAL_THRESHOLD]) rfl,
   C2_suppression_law.2.2.2.2.1 sampleUser "BTC" sampleEntry 10 50 9 "manual_hedge" rfl rfl,
   C2_suppression_law.2.2.2.2.2
     { sampleEntry with
         suppress_alerts := true
         history := [{ action := "manual_hedge", time := 0 }] } 4000 0 rfl rfl
     (by norm_num)⟩

/-- C3 counterexample: a small-notional manual `/hedge_now BTC 1` at
price 100 on an entry with a confirmation pending succeeds, yet
`last_hedge_time` stays `None` and `pending_confirmation` stays true —
refuting the claim that every execution path sets `last_hedge_time` on
success and clears `pending_confirmation`. -/
theorem C3_counterexample :
    (hedge_now_command samplePendingUser "BTC" 1 none (some 100) 5 (PipeOutcome.execDone true)).execSuccess = true ∧
    (lookupEntry (hedge_now_command samplePendingUser "BTC" 1 none (some 100) 5 (PipeOutcome.execDone true)).user.positions "BTC").map
        PosEntry.last_hedge_time = some none ∧
    (lookupEntry (hedge_now_command samplePendingUser "BTC" 1 none (some 100) 5 (PipeOutcome.execDone true)).user.positions "BTC").map
        PosEntry.pending_confirmation = some true := by
  have h := hedge_now_command_small_success samplePendingUser "BTC" 1 100 5 none
    { sampleEntry with pending_confirmation := true } rfl
    (by norm_num [LARGE_TRADE_NOTIONAL_THRESHOLD]) rfl
  rw [h]
  refine ⟨rfl, ?_, ?_⟩
  · rw [lookupEntry_setEntry_self]
    rfl
  · rw [lookupEntry_setEntry_self]
    rfl

/-- C3 (amended): the confirmed execution paths
(`_execute_confirmed_hedge` / `_execute_confirmed_autohedge`) satisfy
the full effect set — success sets `suppress_alerts`, clears
`pending_confirmation`, appends the history entry and sets
`last_hedge_time`; failure clears only `pending_confirmation`.  The
unconfirmed direct paths in `hedge_now_command` and
`hedge_now_command_for_auto` set `suppress_alerts` and append the
history entry on success but leave `last_hedge_time` and
`pending_confirmation` untouched; on failure the manual path changes
nothing beyond the size mutation, and the auto path changes nothing and
escapes with a `NameError`. -/
theorem C3_execution_effects_amended (user : UserData) (asset : String)
    (e : PosEntry) (size price now : ℚ) (f1 : Option ℚ) (act : String)
    (he : lookupEntry user.positions asset = some e)
    (hstrat : set_strategy_ok (user_strategy user) = true) :
    (lookupEntry (execute_confirmed_core user asset size (some price) now (PipeOutcome.execDone true) act).user.positions asset =
       some { e with
                position := { e.position with size := size }
                suppress_alerts := true
                pending_confirmation := false
                history := e.history ++ [{ action := act, time := now }]
                last_hedge_time := some now }) ∧
    (lookupEntry (execute_confirmed_core user asset size (some price) now (PipeOutcome.execDone false) act).user.positions asset =
       some { e with
                position := { e.position with size := size }
                pending_confirmation := false }) ∧
    (¬ |size * price| > LARGE_TRADE_NOTIONAL_THRESHOLD →
      lookupEntry (hedge_now_command user asset size f1 (some price) now (PipeOutcome.execDone true)).user.positions asset =
        some { e with
                 position := { e.position with size := size }
                 suppress_alerts := true
                 history := e.history ++ [{ action := "manual_hedge", time := now }] }) ∧
    (¬ |size * price| > LARGE_TRADE_NOTIONAL_THRESHOLD →
      lookupEntry (hedge_now_command user asset size f1 (some price) now (PipeOutcome.execDone false)).user.positions asset =
        some { e with position := { e.position with size := size } }) ∧
    (¬ |e.position.size * price| > LARGE_TRADE_NOTIONAL_THRESHOLD →
      lookupEntry (hedge_now_command_for_auto user asset (some price) now (PipeOutcome.execDone true) true).user.positions asset =
        some { e with
                 suppress_alerts := true
                 history := e.history ++ [{ action := "auto_hedge", time := now }] }) ∧
    (¬ |e.position.size * price| > LARGE_TRADE_NOTIONAL_THRESHOLD →
      (hedge_now_command_for_auto user asset (some price) now (PipeOutcome.execDone false) true).user = user ∧
      (hedge_now_command_for_auto user asset (some price) now (PipeOutcome.execDone false) true).raisedError = true) := by
  refine ⟨?_, ?_, ?_, ?_, ?_, ?_⟩
  · rw [execute_confirmed_core_success user asset size price now act e he hstrat]
    exact lookupEntry_setEntry_self _ _ _
  · rw [execute_confirmed_core_failure user asset size price now act e he hstrat]
    exact lookupEntry_setEntry_self _ _ _
  · intro hsmall
    rw [hedge_now_command_small_success user asset size price now f1 e he hsmall hstrat]
    exact lookupEntry_setEntry_self _ _ _
  · intro hsmall
    rw [hedge_now_command_small_failure user asset size price now f1 e he hsmall hstrat]
    exact lookupEntry_setEntry_self _ _ _
  · intro hsmall
    rw [hedge_now_auto_small_success user asset price now e he hsmall hstrat]
    exact lookupEntry_setEntry_self _ _ _
  · intro hsmall
    rw [hedge_now_auto_small_failure user asset price now e he hsmall hstrat]
    exact ⟨rfl, rfl⟩

/-- C3 witness: the sample user hedging 10 BTC at price 50 (notional
500 ≤ 100000): both a confirmed and a direct execution evaluated at
concrete inputs. -/
theorem C3_witness :
    (lookupEntry (execute_confirmed_core sampleUser "BTC" 10 (some 50) 9 (PipeOutcome.execDone true) "manual_hedge").user.positions "BTC" =
       some { sampleEntry with
                position := { sampleEntry.position with size := 10 }
                suppress_alerts := true
                pending_confirmation := false
                history := sampleEntry.history ++ [{ action := "manual_hedge", time := 9 }]
                last_hedge_time := some 9 }) ∧
    (lookupEntry (hedge_now_command sampleUser "BTC" 10 none (some 50) 9 (PipeOutcome.execDone true)).user.positions "BTC" =
       some { sampleEntry with
                position := { sampleEntry.position with size := 10 }
                suppress_alerts := true
                history := sampleEntry.history ++ [{ action := "manual_hedge", time := 9 }] }) :=
  ⟨(C3_execution_effects_amended sampleUser "BTC" sampleEntry 10 50 9 none
      "manual_hedge" rfl rfl).1,
   (C3_execution_effects_amended sampleUser "BTC" sampleEntry 10 50 9 none
      "manual_hedge" rfl rfl).2.2.1
     (by norm_num [LARGE_TRADE_NOTIONAL_THRESHOLD])⟩

end HedgeAssist
